import Mathlib

/-!
Shallow embedding of `kaolin/datasets/modelnet.py` (dataset adapter classes
`ModelNet`, `ModelNetPointCloud`, `ModelNetVoxels`) and proofs about it.

Modelling conventions:
* The filesystem seen by a constructor is an explicit value (`FS`, `VoxFS`):
  `basedir.iterdir()` directory entries and the per-directory glob results are
  fields, listed in the order the Python iteration would yield them.
* Python exceptions become an error type `PyErr`; a fallible computation
  returns `Except PyErr _`, and a `__getitem__` call yields an `Outcome`
  (normal return, propagated exception, or the `pdb.set_trace()` breakpoint
  entered by the bare `except:` handler in `ModelNetPointCloud.__getitem__`).
* External numeric code that lives outside this file of the repository
  (`kal.rep.TriangleMesh.from_off`, `mesh.sample`) is modelled from the spec,
  as noted on each definition.  `np.random.choice` (third-party) is modelled
  from its documented behaviour, with the random source an explicit oracle
  `rand : Nat -> Nat`.
* User-supplied transforms are modelled as pure callables; `torch` device
  placement (`.to(device)`) is a no-op on the modelled values; the platform is
  fixed to non-Windows (the `sys.platform.startswith('win')` branch of
  `ModelNetVoxels.__getitem__` is not taken).
* Python module-level name resolution is modelled for the names the module
  actually imports (`modelnetModuleGlobals`): `ModelNetVoxels.__init__` uses
  `os` and `glob`, neither of which is imported, so resolving them yields a
  `NameError`.
-/

/-- Python exceptions that the modelled code can raise. -/
inductive PyErr where
  | valueError (msg : String)
  | nameError (name : String)
  | indexError
  | notImplementedError
  | assertionError (msg : String)
  deriving DecidableEq, Repr

/-- Result of calling a `__getitem__`: a normal return, a propagated
exception, or the interactive `pdb.set_trace()` breakpoint entered by a bare
`except:` handler (recording the swallowed exception).  What an interactive
debugger user does after the breakpoint is outside the model. -/
inductive Outcome (α : Type) where
  | returns (a : α)
  | raises (e : PyErr)
  | pdbBreakpoint (e : PyErr)
  deriving Repr

/-- A 3D point; concrete coordinates keep the model executable. -/
abbrev Pt := Int × Int × Int

/-- A point cloud: a tensor of shape (n, 3), modelled as its list of rows. -/
abbrev PointCloud := List Pt

/-- Modelled from the spec: a mesh is "geometry as vertices and faces"
(`kal.rep.TriangleMesh`); `surfacePoint` abstracts its surface so that
sampling can produce points (spec: "a point cloud ... sampled from a
surface"). -/
structure TriangleMesh where
  vertices : List Pt
  faces : List (Nat × Nat × Nat)
  surfacePoint : Nat → Pt

/-- Modelled from the spec: `mesh.sample(n)` "optionally derives a point
cloud by surface sampling" producing a "fixed-size point array" of `n`
points (the Python call returns `(points, choices)`; the adapters only use
the points, so the model returns those). -/
def TriangleMesh.sample (m : TriangleMesh) (n : Nat) : PointCloud :=
  (List.range n).map m.surfacePoint

/-- A Python value as returned by the adapters' `__getitem__` methods. -/
inductive PyVal where
  | mesh (m : TriangleMesh)
  | tensor (pts : PointCloud)
  | intTensor (n : Int)
  | str (s : String)
  | voxels (g : List (List (List Int)))
  | tuple (fst snd : PyVal)
  | dict (entries : List (String × PyVal))

/-- Whether a Python value is a 2-tuple. -/
def PyVal.isTuple : PyVal → Bool
  | .tuple _ _ => true
  | _ => false

/-- The directory tree under `basedir` as the ModelNet constructors see it:
`dirs` is the list of names of the `is_dir()` entries of `basedir.iterdir()`, and
`files` records, per `(category, split)`, the paths matched by
`(basedir/category/split).glob('*.off')` in iteration order (a glob over a
missing directory matches nothing, hence the `[]` default). -/
structure FS where
  dirs : List String
  files : List ((String × String) × List String)
  deriving Repr

/-- The `*.off` paths under `basedir/cat/split`. -/
def FS.offFiles (fs : FS) (cat split : String) : List String :=
  match fs.files.lookup (cat, split) with
  | some l => l
  | none => []

/-- External loaders used at access time: `kal.rep.TriangleMesh.from_off`
(modelled from the spec: "mesh loading parses a mesh file") and
`scipy.io.loadmat(path)['instance']` (third-party MATLAB-array reader,
modelled as a total map from path to 3D integer array). -/
structure Env where
  loadOff : String → TriangleMesh
  loadmat : String → List (List (List Int))

/-- Python truthiness of `categories or avail_categories`: `None` and the
empty list are both falsy, so either selects `avail_categories`. -/
def pyOr (categories : Option (List String)) (avail : List String) : List String :=
  match categories with
  | none => avail
  | some [] => avail
  | some cs => cs

/-- The category scan shared verbatim by `ModelNet.__init__` and
`ModelNetPointCloud.__init__`: for `idx, cat in enumerate(categories)`,
raise `ValueError` if `cat` is not an available category, else append every
`*.off` path under `basedir/cat/split` paired with label `idx`. -/
def scanFrom (fs : FS) (split : String) : Nat → List String → Except PyErr (List (String × Nat))
  | _, [] => .ok []
  | idx, cat :: rest =>
    if cat ∈ fs.dirs then
      match scanFrom fs split (idx + 1) rest with
      | .ok tail => .ok ((fs.offFiles cat split).map (fun p => (p, idx)) ++ tail)
      | .error e => .error e
    else
      .error (.valueError ("Invalid ModelNet class " ++ cat))

/-- State of a constructed `ModelNet` object. -/
structure ModelNetState where
  categories : List String
  paths : List String
  labels : List Nat
  rep : String
  split : String
  transform : Option (PyVal → PyVal)
  num_points : Nat

/-- `ModelNet.__init__`: validate `rep`, then `split`, then scan the
directory tree (`categories or avail_categories`, positional labels).
`num_points` is `kwargs.get('num_points', 1024)` at the call site. -/
def ModelNet.init (fs : FS) (rep split : String) (categories : Option (List String))
    (transform : Option (PyVal → PyVal)) (num_points : Nat) : Except PyErr ModelNetState :=
  if ¬(rep = "mesh" ∨ rep = "pointcloud") then
    .error (.valueError ("Argument 'rep' must be one of 'mesh' or 'pointcloud'. Got " ++ rep ++ " instead."))
  else if ¬(split = "train" ∨ split = "test") then
    .error (.valueError ("Argument 'split' must be one of 'train' or 'test'. Got " ++ split ++ " instead."))
  else
    let avail_categories := fs.dirs
    let cats := pyOr categories avail_categories
    match scanFrom fs split 0 cats with
    | .error e => .error e
    | .ok pl =>
      .ok { categories := cats, paths := pl.map Prod.fst, labels := pl.map Prod.snd,
            rep := rep, split := split, transform := transform, num_points := num_points }

/-- `ModelNet.__len__`: `len(self.paths)`. -/
def ModelNet.len (s : ModelNetState) : Nat :=
  s.paths.length

/-- `ModelNet.__getitem__`: load the mesh from `self.paths[idx]`, build the
label tensor `LongTensor([self.labels[idx]])`, and return `(mesh, label)` or
`(pts, label)` according to `self.rep`, applying `self.transform` to the
sample when set.  `.to(device)` placement is a no-op on modelled values. -/
def ModelNet.getitem (env : Env) (s : ModelNetState) (idx : Nat) : Outcome PyVal :=
  match s.paths[idx]? with
  | none => .raises .indexError
  | some path =>
    let mesh := env.loadOff path
    match s.labels[idx]? with
    | none => .raises .indexError
    | some lab =>
      let label : Int := (lab : Int)
      if s.rep = "mesh" then
        let sample : PyVal :=
          match s.transform with
          | none => .mesh mesh
          | some t => t (.mesh mesh)
        .returns (.tuple sample (.intTensor label))
      else if s.rep = "pointcloud" then
        let pts := mesh.sample s.num_points
        let sample : PyVal :=
          match s.transform with
          | none => .tensor pts
          | some t => t (.tensor pts)
        .returns (.tuple sample (.intTensor label))
      else
        .raises .notImplementedError

/-- One selection step pool for `np.random.choice(n, size, replace=False)`:
draw `k` elements one by one, each removed from the remaining pool, the
position picked by the oracle `rand` (reduced mod pool size).  Distinctness
of the result is exactly numpy's "without replacement". -/
def drawDistinct (rand : Nat → Nat) : Nat → Nat → List Nat → List Nat
  | _, 0, _ => []
  | step, k + 1, pool =>
    if h : pool.length = 0 then []
    else
      let i : Fin pool.length := ⟨rand step % pool.length, Nat.mod_lt _ (Nat.pos_of_ne_zero h)⟩
      pool.get i :: drawDistinct rand (step + 1) k (pool.eraseIdx i)

/-- Third-party model of `np.random.choice(n, size=size, replace=False)`:
raises `ValueError` when `size > n` ("Cannot take a larger sample than
population when 'replace=False'"), otherwise returns `size` distinct indices
below `n`, chosen by the oracle `rand`. -/
def npChoice (rand : Nat → Nat) (n size : Nat) : Except PyErr (List Nat) :=
  if size > n then
    .error (.valueError "Cannot take a larger sample than population when replace is False")
  else
    .ok (drawDistinct rand 0 size (List.range n))

/-- State of a constructed `ModelNetPointCloud` object; `sample_cache` is the
Python dict `self.sample_cache`, an association list whose most recent
insertion is at the head. -/
structure MNPCState where
  categories : List String
  paths : List String
  labels : List Nat
  split : String
  transform : Option (PointCloud → PointCloud)
  num_points : Nat
  sample_points : Nat
  sample_cache : List (Nat × PointCloud)

/-- `ModelNetPointCloud.__init__`: validate `split`, scan the directory tree
exactly as `ModelNet.__init__` does, and start with an empty
`self.sample_cache = dict()`. -/
def MNPC.init (fs : FS) (split : String) (categories : Option (List String))
    (transform : Option (PointCloud → PointCloud)) (num_points sample_points : Nat) :
    Except PyErr MNPCState :=
  if ¬(split = "train" ∨ split = "test") then
    .error (.valueError ("Argument 'split' must be one of 'train' or 'test'. Got " ++ split ++ " instead."))
  else
    let avail_categories := fs.dirs
    let cats := pyOr categories avail_categories
    match scanFrom fs split 0 cats with
    | .error e => .error e
    | .ok pl =>
      .ok { categories := cats, paths := pl.map Prod.fst, labels := pl.map Prod.snd,
            split := split, transform := transform, num_points := num_points,
            sample_points := sample_points, sample_cache := [] }

/-- `ModelNetPointCloud.__len__`: `len(self.paths)`. -/
def MNPC.len (s : MNPCState) : Nat :=
  s.paths.length

/-- Application of the optional `self.transform` callable to a point cloud
(`if self.transform is not None: pts = self.transform(pts)`). -/
def applyTransform (transform : Option (PointCloud → PointCloud)) (pts : PointCloud) : PointCloud :=
  match transform with
  | none => pts
  | some t => t pts

/-- The downsample-and-transform tail of `ModelNetPointCloud.__getitem__`:
`idxs = np.random.choice(full_pts.size(0), size=self.num_points,
replace=False)`, `pts = full_pts[idxs, :]`, `.to(device)` (a no-op here),
then the optional transform. -/
def MNPC.downsample (rand : Nat → Nat) (s : MNPCState) (full : PointCloud) :
    Except PyErr PointCloud :=
  match npChoice rand full.length s.num_points with
  | .error e => .error e
  | .ok idxs =>
    let pts := idxs.map (fun i => full.getD i (0, 0, 0))
    .ok (applyTransform s.transform pts)

/-- Body of the `try:` block of `ModelNetPointCloud.__getitem__`: on a cache
miss, load the mesh, sample `self.sample_points` surface points and store
them in `self.sample_cache[idx]` (the store persists even if a later step
raises); then downsample to `self.num_points` points.  Returns the result of
the block together with the state as mutated so far. -/
def MNPC.getitemBody (env : Env) (rand : Nat → Nat) (s : MNPCState) (idx : Nat) :
    Except PyErr PointCloud × MNPCState :=
  match s.sample_cache.lookup idx with
  | none =>
    match s.paths[idx]? with
    | none => (.error .indexError, s)
    | some path =>
      let mesh := env.loadOff path
      let full := mesh.sample s.sample_points
      let s' := { s with sample_cache := (idx, full) :: s.sample_cache }
      (MNPC.downsample rand s' full, s')
  | some full => (MNPC.downsample rand s full, s)

/-- `ModelNetPointCloud.__getitem__`: the whole body sits in a
`try: ... except: import pdb; pdb.set_trace()` — a normal completion returns
the (bare, unlabelled) point tensor, and any exception is swallowed into the
interactive breakpoint instead of propagating. -/
def MNPC.getitem (env : Env) (rand : Nat → Nat) (s : MNPCState) (idx : Nat) :
    Outcome PyVal × MNPCState :=
  match MNPC.getitemBody env rand s idx with
  | (.ok pts, s') => (.returns (.tensor pts), s')
  | (.error e, s') => (.pdbBreakpoint e, s')

/-- A sequence of `__getitem__` calls on one `ModelNetPointCloud` object:
each access supplies its random oracle and index; the state threads through. -/
def MNPC.runAccesses (env : Env) (s : MNPCState) (accs : List ((Nat → Nat) × Nat)) : MNPCState :=
  accs.foldl (fun st a => (MNPC.getitem env a.1 st a.2).2) s

/-- The module-level names bound by `kaolin/datasets/modelnet.py`'s import
statements and top-level definitions.  Neither `os` nor `glob` is among
them. -/
def modelnetModuleGlobals : List String :=
  ["Callable", "Iterable", "Optional", "Union", "torch", "sys", "Path", "sio",
   "np", "kal", "_MODELNET10_CLASSES", "ModelNet", "ModelNetPointCloud",
   "ModelNetVoxels"]

/-- Python name resolution for a module-level global: a name not bound in the
module namespace (nor a builtin) raises `NameError` at its first use. -/
def resolveGlobal (n : String) : Except PyErr Unit :=
  if n ∈ modelnetModuleGlobals then .ok () else .error (.nameError n)

/-- The directory tree a working `ModelNetVoxels.__init__` would consult:
whether `root + '/ModelNet/'` exists, the class directories matched by
`glob(root + '/ModelNet/volumetric_data/*/')` (as basenames), and the `.mat`
files matched per `(category, split, side)` glob pattern. -/
structure VoxFS where
  rootExists : Bool
  classDirs : List String
  matFiles : List ((String × String × String) × List String)
  deriving Repr

/-- The `.mat` paths matched by
`glob(root + '/ModelNet/volumetric_data/{cat}/*/{split}/*{side}.mat')`. -/
def VoxFS.mats (fs : VoxFS) (cat split side : String) : List String :=
  match fs.matFiles.lookup (cat, split, side) with
  | some l => l
  | none => []

/-- State of a `ModelNetVoxels` object. -/
structure VoxelsState where
  names : List String
  deriving DecidableEq, Repr

/-- The per-category loop of `ModelNetVoxels.__init__`: assert the category
is known, then extend `self.names` with the train and/or test `.mat` globs. -/
def voxScan (fs : VoxFS) (side : String) (train test : Bool) (all_classes : List String) :
    List String → Except PyErr (List String)
  | [] => .ok []
  | category :: rest =>
    if category ∈ all_classes then
      let here := (if train then fs.mats category "train" side else []) ++
                  (if test then fs.mats category "test" side else [])
      match voxScan fs side train test all_classes rest with
      | .ok tail => .ok (here ++ tail)
      | .error e => .error e
    else
      .error (.assertionError ("object class " ++ category ++ " not in list of availible classes"))

/-- `ModelNetVoxels.__init__`: its first statement,
`if not os.path.exists(root + '/ModelNet/'):`, resolves the module global
`os` — which the module never imports — so `NameError` is raised before any
validation or scanning; the rest of the body (download asserts, `side`
selection, the `glob`-based scan, which would also hit an unresolvable
`glob`) is modelled for completeness but unreachable. -/
def ModelNetVoxels.init (fs : VoxFS) (train test download : Bool)
    (categories : List String) (single_view : Bool) : Except PyErr VoxelsState := do
  let _ ← resolveGlobal "os"
  if !fs.rootExists then
    if !download then
      throw (.assertionError "ModelNet is not found, and download is set to False")
    else if !(train || test) then
      throw (.assertionError "either train or test must be set to True")
  let side := if !single_view then "" else "_1"
  let _ ← resolveGlobal "glob"
  let all_classes := fs.classDirs
  let names ← voxScan fs side train test all_classes categories
  pure { names := names }

/-- `ModelNetVoxels.__len__`: `len(self.names)`. -/
def ModelNetVoxels.len (s : VoxelsState) : Nat :=
  s.names.length

/-- Python negative indexing `l[-k]` on a list: defined when `k ≤ len(l)`. -/
def pyGetNeg (l : List String) (k : Nat) : Option String :=
  if k ≤ l.length then l[l.length - k]? else none

/-- Splitting a character list at `/` (helper for `pySplitSlash`). -/
def splitCharsSlash : List Char → List (List Char)
  | [] => [[]]
  | c :: rest =>
    if c = '/' then [] :: splitCharsSlash rest
    else
      match splitCharsSlash rest with
      | [] => [[c]]
      | w :: ws => (c :: w) :: ws

/-- Python's `object_path.split('/')`: split on every slash, keeping empty
components (so the result is always nonempty). -/
def pySplitSlash (s : String) : List String :=
  (splitCharsSlash s.data).map (fun cs => String.mk cs)

/-- `ModelNetVoxels.__getitem__`: split the path on `/` (the platform is
non-Windows, so the backslash replacement is skipped), read the class from
component `[-4]` and the name from `[-1]`, load the `instance` array via
`scipy.io.loadmat`, and return the nested attributes/data dictionary. -/
def ModelNetVoxels.getitem (env : Env) (s : VoxelsState) (item : Nat) : Outcome PyVal :=
  match s.names[item]? with
  | none => .raises .indexError
  | some object_path =>
    let parts := pySplitSlash object_path
    match pyGetNeg parts 4, pyGetNeg parts 1 with
    | some object_class, some object_name =>
      let object_data := env.loadmat object_path
      .returns (.dict
        [("attributes", .dict [("name", .str object_name), ("class", .str object_class)]),
         ("data", .dict [("voxels", .voxels object_data)])])
    | _, _ => .raises .indexError

/-- The file paths matched for categories `cs` under `split`, each paired
with the positional label of its category: the formal reading of the spec's
"each category maps to a stable integer label by position". -/
def labelPairs (fs : FS) (split : String) (cs : List String) : List (String × Nat) :=
  cs.enum.flatMap (fun ic => (fs.offFiles ic.2 split).map (fun p => (p, ic.1)))

/-- Total `*.off` file count over the selected categories. -/
def countOff (fs : FS) (split : String) (cs : List String) : Nat :=
  (cs.map (fun c => (fs.offFiles c split).length)).sum

/-- Concrete directory tree used by witnesses: one category `chair` whose
`train` split holds two `.off` files. -/
def fsW : FS :=
  { dirs := ["chair"], files := [(("chair", "train"), ["a.off", "b.off"])] }

/-- Concrete mesh returned by the witness loader. -/
def meshW : TriangleMesh :=
  { vertices := [], faces := [], surfacePoint := fun k => ((k : Int), 0, 0) }

/-- Concrete loader environment used by witnesses. -/
def envW : Env :=
  { loadOff := fun _ => meshW, loadmat := fun _ => [[[1]]] }

/-- Concrete random oracle used by witnesses. -/
def randW : Nat → Nat := fun _ => 0

/-- Concrete voxel directory tree whose class listing is just `chair`. -/
def vfsW : VoxFS := { rootExists := true, classDirs := ["chair"], matFiles := [] }

/-- The `ModelNet` state produced by `ModelNet.init fsW "mesh" "train" none none 1024`. -/
def sW1 : ModelNetState :=
  { categories := ["chair"], paths := ["a.off", "b.off"], labels := [0, 0],
    rep := "mesh", split := "train", transform := none, num_points := 1024 }

/-- The `ModelNetPointCloud` state produced by
`MNPC.init fsW "train" none none 1 1`. -/
def sCE1 : MNPCState :=
  { categories := ["chair"], paths := ["a.off", "b.off"], labels := [0, 0],
    split := "train", transform := none, num_points := 1, sample_points := 1,
    sample_cache := [] }

/-- The `ModelNetPointCloud` state produced by
`MNPC.init fsW "train" none none 2 1`: it asks for more output points than
the cached full-resolution sample holds. -/
def sCE5 : MNPCState :=
  { categories := ["chair"], paths := ["a.off", "b.off"], labels := [0, 0],
    split := "train", transform := none, num_points := 2, sample_points := 1,
    sample_cache := [] }

/-- A `ModelNetPointCloud` state whose cache is already populated at index 0. -/
def sW5 : MNPCState :=
  { categories := ["chair"], paths := ["a.off", "b.off"], labels := [0, 0],
    split := "train", transform := none, num_points := 1, sample_points := 1,
    sample_cache := [(0, [(5, 6, 7)])] }

/-- A `ModelNetPointCloud` state with one cache entry, used to exercise cache
preservation across an access sequence. -/
def sW6 : MNPCState :=
  { categories := ["chair"], paths := ["a.off", "b.off"], labels := [0, 0],
    split := "train", transform := none, num_points := 1, sample_points := 1,
    sample_cache := [(0, [(1, 2, 3)])] }

/-- A `ModelNetPointCloud` state on which the downsampling step raises
(`num_points` exceeds the cached sample's size). -/
def sW8 : MNPCState :=
  { categories := ["chair"], paths := ["a.off", "b.off"], labels := [0, 0],
    split := "train", transform := none, num_points := 2, sample_points := 1,
    sample_cache := [(0, [(0, 0, 0)])] }

/-- A `ModelNetVoxels` state holding one `.mat` path of the documented
directory shape. -/
def vsW : VoxelsState :=
  { names := ["data/ModelNet/volumetric_data/chair/30/train/chair_0001_1.mat"] }

/-- `ModelNetVoxels.__init__` never gets past its first statement: the
module global `os` does not resolve. -/
theorem voxInit_always_nameError (fs : VoxFS) (train test download : Bool)
    (categories : List String) (single_view : Bool) :
    ModelNetVoxels.init fs train test download categories single_view =
      .error (.nameError "os") := rfl

/-- A successful scan pairs the files of the category at position `i` of the
scanned list with label `k + i`. -/
theorem scanFrom_ok_eq (fs : FS) (split : String) :
    ∀ (cs : List String) (k : Nat) (pl : List (String × Nat)),
      scanFrom fs split k cs = .ok pl →
      pl = (List.enumFrom k cs).flatMap
        (fun ic => (fs.offFiles ic.2 split).map (fun p => (p, ic.1))) := by
  intro cs
  induction cs with
  | nil =>
    intro k pl h
    simp only [scanFrom] at h
    cases h
    rfl
  | cons c rest ih =>
    intro k pl h
    simp only [scanFrom] at h
    by_cases hc : c ∈ fs.dirs
    · rw [if_pos hc] at h
      cases hrec : scanFrom fs split (k + 1) rest with
      | ok tail =>
        rw [hrec] at h
        cases h
        rw [List.enumFrom_cons, List.flatMap_cons, ← ih (k + 1) tail hrec]
      | error e =>
        rw [hrec] at h
        cases h
    · rw [if_neg hc] at h
      cases h

/-- A successful scan matches, in total, one path per `*.off` file of each
scanned category. -/
theorem scanFrom_ok_length (fs : FS) (split : String) :
    ∀ (cs : List String) (k : Nat) (pl : List (String × Nat)),
      scanFrom fs split k cs = .ok pl → pl.length = countOff fs split cs := by
  intro cs
  induction cs with
  | nil =>
    intro k pl h
    simp only [scanFrom] at h
    cases h
    rfl
  | cons c rest ih =>
    intro k pl h
    simp only [scanFrom] at h
    by_cases hc : c ∈ fs.dirs
    · rw [if_pos hc] at h
      cases hrec : scanFrom fs split (k + 1) rest with
      | ok tail =>
        rw [hrec] at h
        cases h
        simp [countOff, ih (k + 1) tail hrec]
      | error e =>
        rw [hrec] at h
        cases h
    · rw [if_neg hc] at h
      cases h

/-- A file of the category at position `i` of the scanned list appears in
the scan result with label `k + i`. -/
theorem scanFrom_ok_pointwise (fs : FS) (split : String) :
    ∀ (cs : List String) (k : Nat) (pl : List (String × Nat)),
      scanFrom fs split k cs = .ok pl →
      ∀ (i : Nat) (hi : i < cs.length) (p : String),
        p ∈ fs.offFiles (cs.get ⟨i, hi⟩) split → (p, k + i) ∈ pl := by
  intro cs
  induction cs with
  | nil =>
    intro k pl h i hi
    exact absurd hi (Nat.not_lt_zero i)
  | cons c rest ih =>
    intro k pl h i hi p hp
    simp only [scanFrom] at h
    by_cases hc : c ∈ fs.dirs
    · rw [if_pos hc] at h
      cases hrec : scanFrom fs split (k + 1) rest with
      | ok tail =>
        rw [hrec] at h
        cases h
        cases i with
        | zero =>
          exact List.mem_append_left _ (List.mem_map.mpr ⟨p, hp, rfl⟩)
        | succ j =>
          have hj : j < rest.length := Nat.lt_of_succ_lt_succ hi
          have := ih (k + 1) tail hrec j hj p hp
          have harith : k + 1 + j = k + (j + 1) := by omega
          rw [harith] at this
          exact List.mem_append_right _ this
      | error e =>
        rw [hrec] at h
        cases h
    · rw [if_neg hc] at h
      cases h

/-- If some requested category is unavailable, the scan raises `ValueError`
naming the first unavailable category of the list. -/
theorem scanFrom_error_of_bad (fs : FS) (split : String) :
    ∀ (cs : List String) (k : Nat) (c : String), c ∈ cs → c ∉ fs.dirs →
      ∃ c', c' ∈ cs ∧ c' ∉ fs.dirs ∧
        scanFrom fs split k cs =
          .error (.valueError ("Invalid ModelNet class " ++ c')) := by
  intro cs
  induction cs with
  | nil =>
    intro k c hc
    exact absurd hc (List.not_mem_nil c)
  | cons c0 rest ih =>
    intro k c hmem hbad
    by_cases h0 : c0 ∈ fs.dirs
    · have hrest : c ∈ rest := by
        rcases List.mem_cons.mp hmem with h | h
        · exact absurd h0 (h ▸ hbad)
        · exact h
      obtain ⟨c', hc'mem, hc'bad, heq⟩ := ih (k + 1) c hrest hbad
      refine ⟨c', List.mem_cons_of_mem _ hc'mem, hc'bad, ?_⟩
      simp only [scanFrom]
      rw [if_pos h0, heq]
    · refine ⟨c0, List.mem_cons_self _ _, h0, ?_⟩
      simp only [scanFrom]
      rw [if_neg h0]

/-- Inversion of a successful `ModelNet.__init__`. -/
theorem modelNetInit_ok {fs : FS} {rep split : String} {cats : Option (List String)}
    {t : Option (PyVal → PyVal)} {n : Nat} {s : ModelNetState}
    (h : ModelNet.init fs rep split cats t n = .ok s) :
    (rep = "mesh" ∨ rep = "pointcloud") ∧ (split = "train" ∨ split = "test") ∧
    s.rep = rep ∧ s.split = split ∧ s.transform = t ∧ s.num_points = n ∧
    s.categories = pyOr cats fs.dirs ∧
    ∃ pl, scanFrom fs split 0 (pyOr cats fs.dirs) = .ok pl ∧
      s.paths = pl.map Prod.fst ∧ s.labels = pl.map Prod.snd := by
  by_cases h1 : rep = "mesh" ∨ rep = "pointcloud"
  · by_cases h2 : split = "train" ∨ split = "test"
    · simp only [ModelNet.init] at h
      rw [if_neg (not_not_intro h1), if_neg (not_not_intro h2)] at h
      cases hsc : scanFrom fs split 0 (pyOr cats fs.dirs) with
      | ok pl =>
        rw [hsc] at h
        cases h
        exact ⟨h1, h2, rfl, rfl, rfl, rfl, rfl, pl, rfl, rfl, rfl⟩
      | error e =>
        rw [hsc] at h
        cases h
    · simp only [ModelNet.init] at h
      rw [if_neg (not_not_intro h1), if_pos h2] at h
      cases h
  · simp only [ModelNet.init] at h
    rw [if_pos h1] at h
    cases h

/-- Inversion of a successful `ModelNetPointCloud.__init__`. -/
theorem mnpcInit_ok {fs : FS} {split : String} {cats : Option (List String)}
    {t : Option (PointCloud → PointCloud)} {np sp : Nat} {s : MNPCState}
    (h : MNPC.init fs split cats t np sp = .ok s) :
    (split = "train" ∨ split = "test") ∧
    s.split = split ∧ s.transform = t ∧ s.num_points = np ∧ s.sample_points = sp ∧
    s.sample_cache = [] ∧ s.categories = pyOr cats fs.dirs ∧
    ∃ pl, scanFrom fs split 0 (pyOr cats fs.dirs) = .ok pl ∧
      s.paths = pl.map Prod.fst ∧ s.labels = pl.map Prod.snd := by
  by_cases h2 : split = "train" ∨ split = "test"
  · simp only [MNPC.init] at h
    rw [if_neg (not_not_intro h2)] at h
    cases hsc : scanFrom fs split 0 (pyOr cats fs.dirs) with
    | ok pl =>
      rw [hsc] at h
      cases h
      exact ⟨h2, rfl, rfl, rfl, rfl, rfl, rfl, pl, rfl, rfl, rfl⟩
    | error e =>
      rw [hsc] at h
      cases h
  · simp only [MNPC.init] at h
    rw [if_pos h2] at h
    cases h

/-- Removing the element at a valid position and putting it back in front is
a permutation of the original list. -/
theorem get_cons_eraseIdx_perm {α : Type} :
    ∀ (l : List α) (i : Nat) (h : i < l.length),
      (l.get ⟨i, h⟩ :: l.eraseIdx i).Perm l := by
  intro l
  induction l with
  | nil =>
    intro i h
    exact absurd h (Nat.not_lt_zero i)
  | cons a t ih =>
    intro i h
    cases i with
    | zero => exact List.Perm.refl _
    | succ j =>
      have hj : j < t.length := Nat.lt_of_succ_lt_succ h
      exact ((List.Perm.swap a _ _).trans ((ih j hj).cons a))

/-- The selection loop modelling `replace=False`: given a duplicate-free
pool, it returns exactly `k` pairwise-distinct elements of the pool whenever
the pool is large enough. -/
theorem drawDistinct_spec (rand : Nat → Nat) :
    ∀ (k step : Nat) (pool : List Nat), k ≤ pool.length → pool.Nodup →
      (drawDistinct rand step k pool).length = k ∧
      (drawDistinct rand step k pool).Nodup ∧
      ∀ x ∈ drawDistinct rand step k pool, x ∈ pool := by
  intro k
  induction k with
  | zero =>
    intro step pool _ _
    exact ⟨rfl, List.nodup_nil, by simp [drawDistinct]⟩
  | succ k ih =>
    intro step pool hk hnd
    have hpos : ¬ pool.length = 0 := by omega
    have hlt : rand step % pool.length < pool.length :=
      Nat.mod_lt _ (Nat.pos_of_ne_zero hpos)
    have hperm := get_cons_eraseIdx_perm pool (rand step % pool.length) hlt
    have hlenerase : (pool.eraseIdx (rand step % pool.length)).length = pool.length - 1 := by
      have := hperm.length_eq
      simp at this
      omega
    have hndcons := hperm.nodup_iff.mpr hnd
    obtain ⟨hnotmem, hnderase⟩ := List.nodup_cons.mp hndcons
    obtain ⟨ihlen, ihnd, ihsub⟩ :=
      ih (step + 1) (pool.eraseIdx (rand step % pool.length)) (by omega) hnderase
    simp only [drawDistinct, dif_neg hpos]
    refine ⟨by simp [ihlen], ?_, ?_⟩
    · exact List.nodup_cons.mpr ⟨fun hmem => hnotmem (ihsub _ hmem), ihnd⟩
    · intro x hx
      rcases List.mem_cons.mp hx with hx | hx
      · exact hx ▸ List.get_mem pool _ hlt
      · exact (List.eraseIdx_sublist pool _).subset (ihsub x hx)

/-- `np.random.choice(n, size, replace=False)` with `size ≤ n` succeeds and
returns `size` distinct indices below `n`. -/
theorem npChoice_ok (rand : Nat → Nat) (n size : Nat) (h : size ≤ n) :
    ∃ idxs, npChoice rand n size = .ok idxs ∧
      idxs.length = size ∧ idxs.Nodup ∧ ∀ x ∈ idxs, x < n := by
  obtain ⟨hlen, hnd, hsub⟩ :=
    drawDistinct_spec rand size 0 (List.range n)
      (by simpa [List.length_range] using h) (List.nodup_range n)
  refine ⟨_, ?_, hlen, hnd, fun x hx => List.mem_range.mp (hsub x hx)⟩
  unfold npChoice
  rw [if_neg (by omega : ¬ size > n)]

/-- One `ModelNetPointCloud.__getitem__` call never removes or overwrites an
existing cache entry: a populated entry survives any later access. -/
theorem MNPC.getitem_cache_preserved (env : Env) (rand : Nat → Nat) (s : MNPCState)
    (idx j : Nat) (v : PointCloud) (hj : s.sample_cache.lookup j = some v) :
    ((MNPC.getitem env rand s idx).2).sample_cache.lookup j = some v := by
  unfold MNPC.getitem MNPC.getitemBody
  cases hc : s.sample_cache.lookup idx with
  | some full =>
    cases hd : MNPC.downsample rand s full <;> simp [hd, hj]
  | none =>
    cases hp : s.paths[idx]? with
    | none => simp [hj]
    | some path =>
      have hne : (j == idx) = false := by
        by_cases hji : j = idx
        · subst hji
          rw [hj] at hc
          cases hc
        · simp [hji]
      cases hd : MNPC.downsample rand
          { s with sample_cache := (idx, (env.loadOff path).sample s.sample_points) :: s.sample_cache }
          ((env.loadOff path).sample s.sample_points) <;>
        simp [hd, List.lookup_cons, hne, hj]

/-- One `ModelNetPointCloud.__getitem__` call never changes the sample
index: `self.paths` (hence `__len__`) is untouched. -/
theorem MNPC.getitem_paths_eq (env : Env) (rand : Nat → Nat) (s : MNPCState) (idx : Nat) :
    ((MNPC.getitem env rand s idx).2).paths = s.paths := by
  unfold MNPC.getitem MNPC.getitemBody
  cases hc : s.sample_cache.lookup idx with
  | some full =>
    cases hd : MNPC.downsample rand s full <;> simp [hd]
  | none =>
    cases hp : s.paths[idx]? with
    | none => simp
    | some path =>
      cases hd : MNPC.downsample rand
          { s with sample_cache := (idx, (env.loadOff path).sample s.sample_points) :: s.sample_cache }
          ((env.loadOff path).sample s.sample_points) <;>
        simp [hd]

/-- C9: constructing `ModelNetVoxels` raises `NameError` for every argument
combination, because its first statement uses the unimported module global
`os` (and the scan would also need the unimported `glob`); no
`ModelNetVoxels` object is ever constructed. -/
theorem C9_voxels_always_nameerror :
    ∀ (fs : VoxFS) (train test download : Bool) (categories : List String)
      (single_view : Bool),
      ModelNetVoxels.init fs train test download categories single_view =
        .error (.nameError "os") :=
  fun fs train test download categories single_view =>
    voxInit_always_nameError fs train test download categories single_view

/-- C3: an unsupported `rep` (for `ModelNet`) or `split` (for `ModelNet` and
`ModelNetPointCloud`) makes construction raise `ValueError` immediately; the
error does not depend on the filesystem, i.e. it is raised before any sample
index is built. -/
theorem C3_invalid_rep_or_split :
    ∀ (rep split : String) (cats : Option (List String)) (t : Option (PyVal → PyVal))
      (t2 : Option (PointCloud → PointCloud)) (n np sp : Nat),
      (¬(rep = "mesh" ∨ rep = "pointcloud") →
        ∀ fs, ModelNet.init fs rep split cats t n =
          .error (.valueError ("Argument 'rep' must be one of 'mesh' or 'pointcloud'. Got " ++
            rep ++ " instead."))) ∧
      ((rep = "mesh" ∨ rep = "pointcloud") → ¬(split = "train" ∨ split = "test") →
        ∀ fs, ModelNet.init fs rep split cats t n =
          .error (.valueError ("Argument 'split' must be one of 'train' or 'test'. Got " ++
            split ++ " instead."))) ∧
      (¬(split = "train" ∨ split = "test") →
        ∀ fs, MNPC.init fs split cats t2 np sp =
          .error (.valueError ("Argument 'split' must be one of 'train' or 'test'. Got " ++
            split ++ " instead."))) := by
  intro rep split cats t t2 n np sp
  refine ⟨?_, ?_, ?_⟩
  · intro h fs
    simp only [ModelNet.init]
    rw [if_pos h]
  · intro h1 h2 fs
    simp only [ModelNet.init]
    rw [if_neg (not_not_intro h1), if_pos h2]
  · intro h2 fs
    simp only [MNPC.init]
    rw [if_pos h2]

/-- Witness for C3 at concrete invalid arguments. -/
theorem C3_invalid_rep_or_split_witness :
    ModelNet.init fsW "voxel" "train" none none 1024 =
      .error (.valueError "Argument 'rep' must be one of 'mesh' or 'pointcloud'. Got voxel instead.") ∧
    ModelNet.init fsW "mesh" "val" none none 1024 =
      .error (.valueError "Argument 'split' must be one of 'train' or 'test'. Got val instead.") ∧
    MNPC.init fsW "val" none none 1024 4096 =
      .error (.valueError "Argument 'split' must be one of 'train' or 'test'. Got val instead.") :=
  ⟨(C3_invalid_rep_or_split "voxel" "train" none none none 1024 1024 4096).1 (by decide) fsW,
   (C3_invalid_rep_or_split "mesh" "val" none none none 1024 1024 4096).2.1 (by decide) (by decide) fsW,
   (C3_invalid_rep_or_split "mesh" "val" none none none 1024 1024 4096).2.2 (by decide) fsW⟩

/-- C10: an empty category list is falsy, so `categories or avail_categories`
treats it exactly like `None`: construction silently selects every
subdirectory of the root instead of yielding an empty dataset or an error. -/
theorem C10_empty_category_list :
    ∀ (fs : FS) (rep split : String) (t : Option (PyVal → PyVal))
      (t2 : Option (PointCloud → PointCloud)) (n np sp : Nat),
      ModelNet.init fs rep split (some []) t n = ModelNet.init fs rep split none t n ∧
      MNPC.init fs split (some []) t2 np sp = MNPC.init fs split none t2 np sp ∧
      (∀ s, ModelNet.init fs rep split (some []) t n = .ok s → s.categories = fs.dirs) ∧
      (∀ s2, MNPC.init fs split (some []) t2 np sp = .ok s2 → s2.categories = fs.dirs) := by
  intro fs rep split t t2 n np sp
  refine ⟨rfl, rfl, ?_, ?_⟩
  · intro s h
    obtain ⟨-, -, -, -, -, -, hcats, -⟩ := modelNetInit_ok h
    simpa [pyOr] using hcats
  · intro s2 h
    obtain ⟨-, -, -, -, -, -, hcats, -⟩ := mnpcInit_ok h
    simpa [pyOr] using hcats

/-- Witness for C10: with category list `[]`, both adapters pick up the
whole directory listing. -/
theorem C10_empty_category_list_witness :
    ModelNet.init fsW "mesh" "train" (some []) none 1024 = .ok sW1 ∧
    sW1.categories = fsW.dirs ∧
    MNPC.init fsW "train" (some []) none 1 1 = .ok sCE1 ∧
    sCE1.categories = fsW.dirs :=
  ⟨rfl,
   (C10_empty_category_list fsW "mesh" "train" none none 1024 1 1).2.2.1 sW1 rfl,
   rfl,
   (C10_empty_category_list fsW "mesh" "train" none none 1024 1 1).2.2.2 sCE1 rfl⟩

/-- C2 (code bug): a requested category absent from the directory listing
raises `ValueError` for `ModelNet` and `ModelNetPointCloud`; but
`ModelNetVoxels` never reaches its category validation — its constructor
dies with `NameError` on the unimported `os` first, so the claimed
validation error is unreachable for that variant. -/
theorem C2_unknown_category_validation :
    ∀ (fs : FS) (rep split : String) (cs : List String) (c : String)
      (t : Option (PyVal → PyVal)) (t2 : Option (PointCloud → PointCloud)) (n np sp : Nat),
      (rep = "mesh" ∨ rep = "pointcloud") → (split = "train" ∨ split = "test") →
      c ∈ cs → c ∉ fs.dirs →
      (∃ c', c' ∈ cs ∧ c' ∉ fs.dirs ∧
        ModelNet.init fs rep split (some cs) t n =
          .error (.valueError ("Invalid ModelNet class " ++ c'))) ∧
      (∃ c', c' ∈ cs ∧ c' ∉ fs.dirs ∧
        MNPC.init fs split (some cs) t2 np sp =
          .error (.valueError ("Invalid ModelNet class " ++ c'))) ∧
      ModelNetVoxels.init vfsW true true true ["bogus_category"] true =
        .error (.nameError "os") := by
  intro fs rep split cs c t t2 n np sp h1 h2 hmem hbad
  have hcs : pyOr (some cs) fs.dirs = cs := by
    cases cs with
    | nil => exact absurd hmem (List.not_mem_nil c)
    | cons a l => rfl
  obtain ⟨c', hc'm, hc'b, heq⟩ := scanFrom_error_of_bad fs split cs 0 c hmem hbad
  refine ⟨⟨c', hc'm, hc'b, ?_⟩, ⟨c', hc'm, hc'b, ?_⟩,
    voxInit_always_nameError vfsW true true true ["bogus_category"] true⟩
  · simp only [ModelNet.init]
    rw [if_neg (not_not_intro h1), if_neg (not_not_intro h2), hcs, heq]
  · simp only [MNPC.init]
    rw [if_neg (not_not_intro h2), hcs, heq]

/-- Witness for C2 at a concrete unknown category. -/
theorem C2_unknown_category_validation_witness :
    (∃ c', c' ∈ ["zzz"] ∧ c' ∉ fsW.dirs ∧
      ModelNet.init fsW "mesh" "train" (some ["zzz"]) none 1024 =
        .error (.valueError ("Invalid ModelNet class " ++ c'))) ∧
    (∃ c', c' ∈ ["zzz"] ∧ c' ∉ fsW.dirs ∧
      MNPC.init fsW "train" (some ["zzz"]) none 1024 4096 =
        .error (.valueError ("Invalid ModelNet class " ++ c'))) ∧
    ModelNetVoxels.init vfsW true true true ["bogus_category"] true =
      .error (.nameError "os") :=
  C2_unknown_category_validation fsW "mesh" "train" ["zzz"] "zzz" none none 1024 1024 4096
    (Or.inl rfl) (Or.inl rfl) (by decide) (by decide)

/-- C4: for every successfully constructed adapter, `__len__` equals the
number of files matched by the construction-time scan, and no
`ModelNetPointCloud.__getitem__` call changes it afterwards
(`ModelNet.__getitem__` takes no state, and no `ModelNetVoxels` is ever
successfully constructed, so the `.mat` case is vacuous). -/
theorem C4_len_eq_matched_files :
    ∀ (env : Env) (rand : Nat → Nat) (fs : FS) (rep split : String)
      (cats : Option (List String)) (t : Option (PyVal → PyVal))
      (t2 : Option (PointCloud → PointCloud)) (n np sp : Nat),
      (∀ s, ModelNet.init fs rep split cats t n = .ok s →
        ModelNet.len s = countOff fs split s.categories) ∧
      (∀ s2, MNPC.init fs split cats t2 np sp = .ok s2 →
        MNPC.len s2 = countOff fs split s2.categories) ∧
      (∀ (s2 : MNPCState) (idx : Nat),
        MNPC.len (MNPC.getitem env rand s2 idx).2 = MNPC.len s2) ∧
      (∀ (vfs : VoxFS) (train test download : Bool) (vcats : List String)
        (sv : Bool) (vs : VoxelsState),
        ModelNetVoxels.init vfs train test download vcats sv ≠ .ok vs) := by
  intro env rand fs rep split cats t t2 n np sp
  refine ⟨?_, ?_, ?_, ?_⟩
  · intro s h
    obtain ⟨-, -, -, -, -, -, hcats, pl, hsc, hpaths, -⟩ := modelNetInit_ok h
    rw [ModelNet.len, hpaths, List.length_map, hcats]
    exact scanFrom_ok_length fs split _ 0 pl hsc
  · intro s2 h
    obtain ⟨-, -, -, -, -, -, hcats, pl, hsc, hpaths, -⟩ := mnpcInit_ok h
    rw [MNPC.len, hpaths, List.length_map, hcats]
    exact scanFrom_ok_length fs split _ 0 pl hsc
  · intro s2 idx
    simp [MNPC.len, MNPC.getitem_paths_eq]
  · intro vfs train test download vcats sv vs h
    rw [voxInit_always_nameError] at h
    cases h

/-- Witness for C4 at a concrete dataset of two files. -/
theorem C4_len_eq_matched_files_witness :
    ModelNet.len sW1 = countOff fsW "train" sW1.categories ∧
    MNPC.len sCE1 = countOff fsW "train" sCE1.categories ∧
    MNPC.len (MNPC.getitem envW randW sCE1 0).2 = MNPC.len sCE1 ∧
    ModelNetVoxels.init vfsW true true true ["chair"] true ≠ .ok vsW := by
  have h := C4_len_eq_matched_files envW randW fsW "mesh" "train" none none none 1024 1 1
  exact ⟨h.1 sW1 rfl, h.2.1 sCE1 rfl, h.2.2.1 sCE1 0,
    h.2.2.2 vfsW true true true ["chair"] true vsW⟩

/-- C6: a populated `sample_cache` entry is never overwritten or evicted by
any later sequence of `ModelNetPointCloud.__getitem__` calls: whatever value
the first access of an index stored is still what the cache holds. -/
theorem C6_cache_never_overwritten :
    ∀ (env : Env) (accs : List ((Nat → Nat) × Nat)) (s : MNPCState) (j : Nat)
      (v : PointCloud),
      s.sample_cache.lookup j = some v →
      (MNPC.runAccesses env s accs).sample_cache.lookup j = some v := by
  intro env accs
  induction accs with
  | nil =>
    intro s j v h
    simpa [MNPC.runAccesses] using h
  | cons a rest ih =>
    intro s j v h
    have h1 := MNPC.getitem_cache_preserved env a.1 s a.2 j v h
    simpa [MNPC.runAccesses, List.foldl_cons] using ih _ j v h1

/-- Witness for C6: a cache entry survives two further accesses. -/
theorem C6_cache_never_overwritten_witness :
    sW6.sample_cache.lookup 0 = some [(1, 2, 3)] ∧
    (MNPC.runAccesses envW sW6 [(randW, 0), (randW, 1)]).sample_cache.lookup 0 =
      some [(1, 2, 3)] :=
  ⟨rfl, C6_cache_never_overwritten envW [(randW, 0), (randW, 1)] sW6 0 [(1, 2, 3)] rfl⟩


/-- C7: labels are positional — the scan pairs every file of the category at
position `i` with label `i` — and repeated construction over the same
directory tree with the same (nonempty) category list reproduces the same
paths and labels, in either adapter. -/
theorem C7_positional_stable_labels :
    ∀ (fs : FS) (rep split : String) (cs : List String) (t t' : Option (PyVal → PyVal))
      (t2 t2' : Option (PointCloud → PointCloud)) (n n' np np' sp sp' : Nat)
      (s s' : ModelNetState) (q q' : MNPCState),
      (ModelNet.init fs rep split (some cs) t n = .ok s →
        s.paths.zip s.labels = labelPairs fs split s.categories ∧
        (cs ≠ [] → s.categories = cs) ∧
        ∀ (i : Nat) (hi : i < s.categories.length) (p : String),
          p ∈ fs.offFiles (s.categories.get ⟨i, hi⟩) split →
            (p, i) ∈ s.paths.zip s.labels) ∧
      (ModelNet.init fs rep split (some cs) t n = .ok s →
        ModelNet.init fs rep split (some cs) t' n' = .ok s' →
          s.paths = s'.paths ∧ s.labels = s'.labels) ∧
      (MNPC.init fs split (some cs) t2 np sp = .ok q →
        q.paths.zip q.labels = labelPairs fs split q.categories ∧
        (cs ≠ [] → q.categories = cs) ∧
        ∀ (i : Nat) (hi : i < q.categories.length) (p : String),
          p ∈ fs.offFiles (q.categories.get ⟨i, hi⟩) split →
            (p, i) ∈ q.paths.zip q.labels) ∧
      (MNPC.init fs split (some cs) t2 np sp = .ok q →
        MNPC.init fs split (some cs) t2' np' sp' = .ok q' →
          q.paths = q'.paths ∧ q.labels = q'.labels) := by
  intro fs rep split cs t t' t2 t2' n n' np np' sp sp' s s' q q'
  have hzip : ∀ (pl : List (String × Nat)),
      (pl.map Prod.fst).zip (pl.map Prod.snd) = pl := by
    intro pl
    rw [List.zip_map']
    simp
  have hpyOr : cs ≠ [] → pyOr (some cs) fs.dirs = cs := by
    intro hne
    cases cs with
    | nil => exact absurd rfl hne
    | cons a l => rfl
  have main : ∀ (pl : List (String × Nat)) (cs0 : List String),
      scanFrom fs split 0 cs0 = .ok pl →
      pl = labelPairs fs split cs0 ∧
      ∀ (i : Nat) (hi : i < cs0.length) (p : String),
        p ∈ fs.offFiles (cs0.get ⟨i, hi⟩) split → (p, i) ∈ pl := by
    intro pl cs0 hsc
    constructor
    · exact scanFrom_ok_eq fs split cs0 0 pl hsc
    · intro i hi p hp
      simpa using scanFrom_ok_pointwise fs split cs0 0 pl hsc i hi p hp
  refine ⟨?_, ?_, ?_, ?_⟩
  · intro h
    obtain ⟨-, -, -, -, -, -, hcats, pl, hsc, hpaths, hlabels⟩ := modelNetInit_ok h
    obtain ⟨hpl, hpw⟩ := main pl _ hsc
    rw [hpaths, hlabels, hzip, hcats]
    exact ⟨hpl, hpyOr, hpw⟩
  · intro h h'
    obtain ⟨-, -, -, -, -, -, -, pl, hsc, hpaths, hlabels⟩ := modelNetInit_ok h
    obtain ⟨-, -, -, -, -, -, -, pl', hsc', hpaths', hlabels'⟩ := modelNetInit_ok h'
    rw [hsc] at hsc'
    cases hsc'
    exact ⟨hpaths.trans hpaths'.symm, hlabels.trans hlabels'.symm⟩
  · intro h
    obtain ⟨-, -, -, -, -, -, hcats, pl, hsc, hpaths, hlabels⟩ := mnpcInit_ok h
    obtain ⟨hpl, hpw⟩ := main pl _ hsc
    rw [hpaths, hlabels, hzip, hcats]
    exact ⟨hpl, hpyOr, hpw⟩
  · intro h h'
    obtain ⟨-, -, -, -, -, -, -, pl, hsc, hpaths, hlabels⟩ := mnpcInit_ok h
    obtain ⟨-, -, -, -, -, -, -, pl', hsc', hpaths', hlabels'⟩ := mnpcInit_ok h'
    rw [hsc] at hsc'
    cases hsc'
    exact ⟨hpaths.trans hpaths'.symm, hlabels.trans hlabels'.symm⟩

/-- Witness for C7 at a concrete one-category tree. -/
theorem C7_positional_stable_labels_witness :
    sW1.paths.zip sW1.labels = labelPairs fsW "train" sW1.categories ∧
    sW1.categories = ["chair"] ∧
    ("a.off", 0) ∈ sW1.paths.zip sW1.labels ∧
    sCE1.paths.zip sCE1.labels = labelPairs fsW "train" sCE1.categories := by
  have h := C7_positional_stable_labels fsW "mesh" "train" ["chair"] none none none none
    1024 1024 1 1 1 1 sW1 sW1 sCE1 sCE1
  obtain ⟨h1, -, h3, -⟩ := h
  obtain ⟨ha, hb, hc⟩ := h1 rfl
  exact ⟨ha, hb (by decide), hc 0 (by decide) "a.off" (by decide), (h3 rfl).1⟩

/-- C8: every exception raised inside the `try:` body of
`ModelNetPointCloud.__getitem__` — loading, sampling, caching, downsampling
or transforming — ends in the bare `except:` handler's `pdb.set_trace()`
breakpoint; the access never propagates an exception to the caller. -/
theorem C8_blanket_except_handler :
    ∀ (env : Env) (rand : Nat → Nat) (s : MNPCState) (idx : Nat),
      (∀ e, (MNPC.getitem env rand s idx).1 ≠ Outcome.raises e) ∧
      (∀ e, (MNPC.getitemBody env rand s idx).1 = .error e →
        (MNPC.getitem env rand s idx).1 = Outcome.pdbBreakpoint e) := by
  intro env rand s idx
  rcases hb : MNPC.getitemBody env rand s idx with ⟨r, s'⟩
  cases r with
  | ok pts =>
    constructor
    · intro e h
      simp [MNPC.getitem, hb] at h
    · intro e h
      simp at h
  | error e0 =>
    constructor
    · intro e h
      simp [MNPC.getitem, hb] at h
    · intro e h
      simp at h
      subst h
      simp [MNPC.getitem, hb]

/-- Witness for C8: a failing downsample (requested output larger than the
cached sample) is swallowed into the breakpoint, not raised. -/
theorem C8_blanket_except_handler_witness :
    (MNPC.getitemBody envW randW sW8 0).1 =
      .error (.valueError "Cannot take a larger sample than population when replace is False") ∧
    (MNPC.getitem envW randW sW8 0).1 =
      Outcome.pdbBreakpoint
        (.valueError "Cannot take a larger sample than population when replace is False") :=
  ⟨rfl, (C8_blanket_except_handler envW randW sW8 0).2 _ rfl⟩

/-- C5 (amended): once the cache holds the full-resolution sample for an
index, every further access with `num_points ≤ sample_points` returns the
optional transform applied to a subsample of exactly `num_points` points
picked at pairwise-distinct row indices of the cached cloud, and leaves the
state unchanged; without that size bound the downsample raises instead (see
the counterexample). -/
theorem C5_cached_access_subsample :
    ∀ (env : Env) (rand : Nat → Nat) (s : MNPCState) (idx : Nat) (full : PointCloud),
      s.sample_cache.lookup idx = some full →
      full.length = s.sample_points →
      s.num_points ≤ s.sample_points →
      ∃ idxs : List Nat,
        idxs.Nodup ∧ idxs.length = s.num_points ∧ (∀ i ∈ idxs, i < full.length) ∧
        (idxs.map (fun i => full.getD i (0, 0, 0))).length = s.num_points ∧
        MNPC.getitem env rand s idx =
          (Outcome.returns (PyVal.tensor
            (applyTransform s.transform (idxs.map (fun i => full.getD i (0, 0, 0))))), s) := by
  intro env rand s idx full hcache hlen hle
  have hsz : s.num_points ≤ full.length := by omega
  obtain ⟨idxs, hch, hl, hnd, hbound⟩ := npChoice_ok rand full.length s.num_points hsz
  refine ⟨idxs, hnd, hl, hbound, by simp [hl], ?_⟩
  unfold MNPC.getitem MNPC.getitemBody
  simp only [hcache]
  simp only [MNPC.downsample, hch]

/-- Witness for C5 at a concrete cached state. -/
theorem C5_cached_access_subsample_witness :
    sW5.sample_cache.lookup 0 = some [(5, 6, 7)] ∧
    ∃ idxs : List Nat,
      idxs.Nodup ∧ idxs.length = sW5.num_points ∧
      (∀ i ∈ idxs, i < ([(5, 6, 7)] : PointCloud).length) ∧
      (idxs.map (fun i => ([(5, 6, 7)] : PointCloud).getD i (0, 0, 0))).length =
        sW5.num_points ∧
      MNPC.getitem envW randW sW5 0 =
        (Outcome.returns (PyVal.tensor (applyTransform sW5.transform
          (idxs.map (fun i => ([(5, 6, 7)] : PointCloud).getD i (0, 0, 0))))), sW5) :=
  ⟨rfl, C5_cached_access_subsample envW randW sW5 0 [(5, 6, 7)] rfl rfl (by decide)⟩

/-- Counterexample to C5 as stated: a validly constructed
`ModelNetPointCloud` with `num_points = 2 > sample_points = 1`; after the
first access populates the cache, a later access of the same index raises
`ValueError` inside `np.random.choice` (landing in the debugger), instead
of returning a point cloud of `num_points` points. -/
theorem C5_counterexample :
    MNPC.init fsW "train" none none 2 1 = .ok sCE5 ∧
    ((MNPC.getitem envW randW sCE5 0).2).sample_cache.lookup 0 = some [(0, 0, 0)] ∧
    (MNPC.getitem envW randW (MNPC.getitem envW randW sCE5 0).2 0).1 =
      Outcome.pdbBreakpoint
        (.valueError "Cannot take a larger sample than population when replace is False") :=
  ⟨rfl, rfl, rfl⟩

/-- C1 (amended): for a constructed adapter and a valid index,
`ModelNet.__getitem__` returns a `(sample, integer-label-tensor)` pair;
`ModelNetPointCloud.__getitem__` returns the (possibly transformed) point
tensor alone — not a pair — provided `num_points ≤ sample_points`; and
`ModelNetVoxels.__getitem__` (on any would-be state, none being
constructible) returns the nested attributes/data dictionary. -/
theorem C1_access_shapes :
    ∀ (env : Env) (fs : FS) (rep split : String) (cats : Option (List String))
      (t : Option (PyVal → PyVal)) (n idx : Nat),
      (∀ s, ModelNet.init fs rep split cats t n = .ok s → idx < s.paths.length →
        ∃ x lab, ModelNet.getitem env s idx = .returns (.tuple x (.intTensor lab))) ∧
      (∀ (rand : Nat → Nat) (t2 : Option (PointCloud → PointCloud)) (np sp : Nat)
        (s2 : MNPCState),
        MNPC.init fs split cats t2 np sp = .ok s2 → idx < s2.paths.length → np ≤ sp →
        ∃ pts, (MNPC.getitem env rand s2 idx).1 = .returns (.tensor pts) ∧
          PyVal.isTuple (.tensor pts) = false) ∧
      (∀ (vs : VoxelsState) (path : String), vs.names[idx]? = some path →
        4 ≤ (pySplitSlash path).length →
        ∃ nm cl g, ModelNetVoxels.getitem env vs idx = .returns (.dict
          [("attributes", .dict [("name", .str nm), ("class", .str cl)]),
           ("data", .dict [("voxels", .voxels g)])])) := by
  intro env fs rep split cats t n idx
  refine ⟨?_, ?_, ?_⟩
  · intro s h hidx
    obtain ⟨h1, -, hrep, -, -, -, -, pl, -, hpaths, hlabels⟩ := modelNetInit_ok h
    have hlen : s.labels.length = s.paths.length := by
      rw [hpaths, hlabels, List.length_map, List.length_map]
    unfold ModelNet.getitem
    simp only [List.getElem?_eq_getElem hidx,
      List.getElem?_eq_getElem (show idx < s.labels.length by omega)]
    rcases h1 with hm | hp
    · rw [if_pos (hrep.trans hm)]
      exact ⟨_, _, rfl⟩
    · rw [if_neg (show ¬ s.rep = "mesh" by rw [hrep, hp]; decide),
        if_pos (hrep.trans hp)]
      exact ⟨_, _, rfl⟩
  · intro rand t2 np sp s2 h hidx hle
    obtain ⟨-, -, htr, hnp, hsp, hcache, -, pl, -, hpaths, -⟩ := mnpcInit_ok h
    have hfl : ((env.loadOff s2.paths[idx]).sample s2.sample_points).length =
        s2.sample_points := by
      simp [TriangleMesh.sample]
    have hsz : s2.num_points ≤
        ((env.loadOff s2.paths[idx]).sample s2.sample_points).length := by omega
    obtain ⟨idxs, hch, hl, hnd, hbound⟩ :=
      npChoice_ok rand ((env.loadOff s2.paths[idx]).sample s2.sample_points).length
        s2.num_points hsz
    unfold MNPC.getitem MNPC.getitemBody
    simp only [hcache, List.lookup_nil, List.getElem?_eq_getElem hidx]
    simp only [MNPC.downsample, hch]
    exact ⟨_, rfl, rfl⟩
  · intro vs path hnames hlen4
    unfold ModelNetVoxels.getitem
    simp only [hnames]
    unfold pyGetNeg
    rw [if_pos hlen4, if_pos (show 1 ≤ (pySplitSlash path).length by omega),
      List.getElem?_eq_getElem
        (show (pySplitSlash path).length - 4 < (pySplitSlash path).length by omega),
      List.getElem?_eq_getElem
        (show (pySplitSlash path).length - 1 < (pySplitSlash path).length by omega)]
    exact ⟨_, _, _, rfl⟩

/-- Witness for C1 at a concrete tree, index, and voxel path. -/
theorem C1_access_shapes_witness :
    (∃ x lab, ModelNet.getitem envW sW1 0 = .returns (.tuple x (.intTensor lab))) ∧
    (∃ pts, (MNPC.getitem envW randW sCE1 0).1 = .returns (.tensor pts) ∧
      PyVal.isTuple (.tensor pts) = false) ∧
    (∃ nm cl g, ModelNetVoxels.getitem envW vsW 0 = .returns (.dict
      [("attributes", .dict [("name", .str nm), ("class", .str cl)]),
       ("data", .dict [("voxels", .voxels g)])])) := by
  have h := C1_access_shapes envW fsW "mesh" "train" none none 1024 0
  exact ⟨h.1 sW1 rfl (by decide),
    h.2.1 randW none 1 1 sCE1 rfl (by decide) (by decide),
    h.2.2 vsW "data/ModelNet/volumetric_data/chair/30/train/chair_0001_1.mat" rfl
      (by decide)⟩

/-- Counterexample to C1 as stated: a validly constructed
`ModelNetPointCloud` whose access at a valid index returns the bare point
tensor — not the claimed `(sample, integer label)` pair. -/
theorem C1_counterexample :
    MNPC.init fsW "train" none none 1 1 = .ok sCE1 ∧
    (MNPC.getitem envW randW sCE1 0).1 = .returns (.tensor [(0, 0, 0)]) ∧
    PyVal.isTuple (.tensor [(0, 0, 0)]) = false :=
  ⟨rfl, rfl, rfl⟩
